import Mathlib

/-!
Verification of the authentication/session flow and the file router of the
fullstack-chat-pdf repository, shallowly embedded in Lean 4.

JavaScript strings are modelled by Lean `String` (lists of characters under
the hood); database tables are modelled by lists of records; Prisma
`findFirst`/`findUnique` become `List.find?`; thrown errors become
`Except.error` values carrying either the TRPC error code or the JS `Error`
message string.
-/

set_option autoImplicit false

/-! Section 1. String helpers, the JS primitives used by the source. -/

/-- JS `String.prototype.startsWith`, on character lists: `jsStartsWith s p`
is `true` iff `p` is a prefix of `s`. -/
def jsStartsWith : List Char → List Char → Bool
  | _, [] => true
  | [], _ :: _ => false
  | c :: cs, p :: ps => c == p && jsStartsWith cs ps

/-- JS `String.prototype.endsWith`, on character lists. -/
def jsEndsWith (s suffixChars : List Char) : Bool :=
  jsStartsWith s.reverse suffixChars.reverse

/-- JS `a || b` on an optional string `a`: the fallback `b` is taken when `a`
is `undefined` or the empty string (both falsy in JS). -/
def jsOrStr (a : Option String) (b : String) : String :=
  match a with
  | none => b
  | some s => if s == "" then b else s

/-- JS falsiness of an optional string: `undefined`/`null` and `""` are falsy. -/
def jsFalsyStr : Option String → Bool
  | none => true
  | some s => s == ""

/-! Section 2. Redirect Guard: `callbacks.redirect` in `auth.ts`. -/

/-- The sign-out endpoint path appended to the base URL by the guard. -/
def signoutPath : String := "/api/auth/signout"

/-- Embeds `callbacks.redirect` from `auth.ts`:
if `url` starts with `baseUrl + "/api/auth/signout"` return `baseUrl`;
otherwise return `url` when it starts with `baseUrl`, else `baseUrl`. -/
def redirect (url baseUrl : String) : String :=
  if jsStartsWith url.data (baseUrl ++ signoutPath).data then baseUrl
  else if jsStartsWith url.data baseUrl.data then url
  else baseUrl

/-- Model of the WHATWG URL origin that the spec wording refers to (the source never
computes an origin; this definition exists only to state origin-based claims):
split the URL at the first `"://"`, then keep the scheme and the authority,
i.e. everything up to the first `/` after the scheme separator. -/
def schemeSplit : List Char → Option (List Char × List Char)
  | [] => none
  | ':' :: '/' :: '/' :: rest => some ([], rest)
  | c :: cs =>
    match schemeSplit cs with
    | none => none
    | some (a, b) => some (c :: a, b)

/-- Authority part of a URL remainder: characters up to the first slash. -/
def takeAuthority : List Char → List Char
  | [] => []
  | '/' :: _ => []
  | c :: cs => c :: takeAuthority cs

/-- Origin of a URL string (scheme plus authority); the URL itself when it has
no scheme separator. -/
def urlOrigin (url : String) : String :=
  match schemeSplit url.data with
  | some (scheme, rest) => String.mk scheme ++ "://" ++ String.mk (takeAuthority rest)
  | none => url

/-! Section 3. File router: fetchAll, fetchFile, deleteFile, getFile. -/

/-- TRPC error codes thrown by the file router. -/
inductive TRPCErrorCode where
  | NOT_FOUND
deriving DecidableEq, Repr

/-- A row of the `file` table: id (primary key), owner user id, storage key. -/
structure File where
  id : String
  userId : String
  key : String
deriving DecidableEq, Repr

/-- Embeds `fileRouter.fetchAll`: all files owned by the caller. -/
def fetchAll (db : List File) (callerId : String) : List File :=
  db.filter (fun f => f.userId == callerId)

set_option linter.unusedVariables false in
/-- Embeds `fileRouter.fetchFile`: `findFirst` on the id alone (the user id of
the caller, available from the session, is not consulted); `NOT_FOUND` when no
row matches. -/
def fetchFile (db : List File) (callerId : String) (id : String) :
    Except TRPCErrorCode File :=
  match db.find? (fun f => f.id == id) with
  | some file => Except.ok file
  | none => Except.error TRPCErrorCode.NOT_FOUND

/-- Embeds `fileRouter.deleteFile`: `findFirst` on id and the user id of the caller;
`NOT_FOUND` (with the table unchanged) when no row matches, otherwise the
row with that id is deleted and the found record returned. The second
component is the table after the call. -/
def deleteFile (db : List File) (callerId : String) (id : String) :
    Except TRPCErrorCode File × List File :=
  match db.find? (fun f => f.id == id && f.userId == callerId) with
  | some file => (Except.ok file, db.filter (fun g => !(g.id == id)))
  | none => (Except.error TRPCErrorCode.NOT_FOUND, db)

/-- Embeds `fileRouter.getFile`: `findFirst` on storage key and the user id of
the caller; `NOT_FOUND` when no row matches. -/
def getFile (db : List File) (callerId : String) (key : String) :
    Except TRPCErrorCode File :=
  match db.find? (fun f => f.key == key && f.userId == callerId) with
  | some file => Except.ok file
  | none => Except.error TRPCErrorCode.NOT_FOUND

/-! Section 4. Credential verification: the `authorize` function of the Credentials provider in `auth.ts`. -/

/-- A row of the `user` table: id, optional display name, email (unique),
optional bcrypt hash of the password. -/
structure User where
  id : String
  name : Option String
  email : String
  hashedPassword : Option String
deriving DecidableEq, Repr

/-- The credentials submitted to the provider; both fields are optional in the
next-auth credentials record, and the record itself may be absent. -/
structure Credentials where
  email : Option String
  password : Option String
deriving DecidableEq, Repr

/-- Embeds `authorize` from `auth.ts`. `cmp` models bcrypt `compare` (an external
collaborator). The JS guard `!credentials?.email || !credentials.password`
rejects an absent record and falsy fields; `!user.hashedPassword` is falsy
for a missing hash and for the empty string, both mapped to the same thrown
message `"Email does not exist"` that the absent-user case uses. -/
def authorize (db : List User) (cmp : String → String → Bool)
    (credentials : Option Credentials) : Except String User :=
  match credentials with
  | none => Except.error "Email and password required"
  | some creds =>
    if jsFalsyStr creds.email || jsFalsyStr creds.password then
      Except.error "Email and password required"
    else
      match db.find? (fun u => u.email == creds.email.getD "") with
      | none => Except.error "Email does not exist"
      | some user =>
        match user.hashedPassword with
        | none => Except.error "Email does not exist"
        | some hp =>
          if hp == "" then Except.error "Email does not exist"
          else if cmp (creds.password.getD "") hp then Except.ok user
          else Except.error "Incorrect password"

/-! Section 5. Session issuance: `callbacks.jwt` and `callbacks.session` in `auth.ts`. -/

/-- The JWT payload fields written by the callbacks; both are absent before
the sign-in invocation populates them. -/
structure JWToken where
  name : Option String
  id : Option String
deriving DecidableEq, Repr

/-- Model of the session user object: `DefaultSession["user"]` augmented with `id`. -/
structure SessionUser where
  name : Option String
  email : Option String
  image : Option String
  id : Option String
deriving DecidableEq, Repr

/-- The per-request session object. -/
structure Session where
  user : Option SessionUser
  expires : String
deriving DecidableEq, Repr

/-- Embeds `callbacks.jwt` from `auth.ts`: on the sign-in invocation (a `user` is
present) copy `user.name` and `user.id` into the token; otherwise return the
incoming token. -/
def jwt (token : JWToken) (user : Option User) : JWToken :=
  match user with
  | some u => { token with name := u.name, id := some u.id }
  | none => token

/-- Embeds `callbacks.session` from `auth.ts`: when the session has a user object,
overwrite its `name` and `id` with the claims of the token. -/
def session (sessionArg : Session) (token : JWToken) : Session :=
  match sessionArg.user with
  | some su =>
    { sessionArg with user := some { su with name := token.name, id := token.id } }
  | none => sessionArg

/-- Embeds `authOptions.session.maxAge` from `auth.ts`, in seconds. -/
def maxAge : Nat := 2592000 * 3

/-! Section 6. Magic-link email rendering: `html` and `text` in `auth.ts`. -/

/-- The HTML entity for the zero-width space, as a character list. -/
def markerChars : List Char := ['&', '#', '8', '2', '0', '3', ';']

/-- Embeds `host.replace(/\./g, "&#8203;.")`: every dot of the host is replaced by
the zero-width-space entity followed by the dot. -/
def escapeHost : List Char → List Char
  | [] => []
  | c :: cs => if c = '.' then markerChars ++ '.' :: escapeHost cs else c :: escapeHost cs

/-- Spec-side reading (for the refinement claim about the rendered host):
the labels of the host, split at the dots. -/
def splitDots : List Char → List (List Char)
  | [] => [[]]
  | c :: cs =>
    if c = '.' then [] :: splitDots cs
    else
      match splitDots cs with
      | [] => [[c]]
      | l :: ls => (c :: l) :: ls

/-- Spec-side reading: rejoin the labels with a zero-width marker at every
label boundary, each marker placed against the dot of that boundary. -/
def joinMarkerDot : List (List Char) → List Char
  | [] => []
  | [l] => l
  | l :: l2 :: ls => l ++ markerChars ++ '.' :: joinMarkerDot (l2 :: ls)

/-- Spec-side reading of the sanitized host: zero-width markers inserted at
each label boundary of the host. -/
def specHostEscape (host : List Char) : List Char :=
  joinMarkerDot (splitDots host)

/-- The brand/button theme passed to the email renderer. -/
structure Theme where
  brandColor : Option String
  buttonText : Option String
deriving DecidableEq, Repr

/-- The template-literal chunks of the HTML body before `escapedHost`
(the `color.background`, `color.mainBackground` and `color.text`
interpolations are the fixed palette strings of the source). -/
def htmlPre : String :=
  "\n" ++
  "<body style=\"background: " ++ "#f3f4f6" ++
    "; margin: 0; padding: 20px; font-family: -apple-system, BlinkMacSystemFont, \x27Segoe UI\x27, Roboto, \x27Helvetica Neue\x27, Arial, sans-serif;\">\n" ++
  "  <table width=\"100%\" border=\"0\" cellspacing=\"0\" cellpadding=\"0\">\n" ++
  "    <tr>\n" ++
  "      <td align=\"center\">\n" ++
  "        <table style=\"background: " ++ "#ffffff" ++
    "; max-width: 600px; width: 100%; border-radius: 16px; box-shadow: 0 4px 6px -1px rgba(0, 0, 0, 0.1), 0 2px 4px -1px rgba(0, 0, 0, 0.06);\">\n" ++
  "          <tr>\n" ++
  "            <td style=\"padding: 40px 48px;\">\n" ++
  "              <table width=\"100%\" border=\"0\" cellspacing=\"0\" cellpadding=\"0\">\n" ++
  "                <tr>\n" ++
  "                  <td>\n" ++
  "                    <h1 style=\"margin: 0 0 24px; font-size: 24px; font-weight: 600; color: " ++ "#1f2937" ++ "; text-align: center;\">\n" ++
  "                      Welcome to <strong>"

/-- The template-literal chunks of the HTML body after `escapedHost`,
interpolating `url` and the theme-derived button colors
(`color.secondaryText` is the fixed palette string `#6b7280`). -/
def htmlPost (url : String) (theme : Theme) : String :=
  "</strong>\n" ++
  "                    </h1>\n" ++
  "                    <p style=\"margin: 0 0 24px; font-size: 16px; line-height: 24px; color: " ++ "#6b7280" ++ "; text-align: center;\">\n" ++
  "                      Click the button below to sign in to your account.\n" ++
  "                    </p>\n" ++
  "                  </td>\n" ++
  "                </tr>\n" ++
  "                <tr>\n" ++
  "                  <td align=\"center\" style=\"padding: 16px 0 32px;\">\n" ++
  "                    <a href=\"" ++ url ++ "\" \n" ++
  "                      target=\"_blank\"\n" ++
  "                      style=\"display: inline-block; padding: 14px 32px; font-size: 16px; font-weight: 500; color: " ++
    jsOrStr theme.buttonText "#ffffff" ++ "; background: " ++
    jsOrStr theme.brandColor "#3567e2" ++
    "; border-radius: 8px; text-decoration: none; transition: all 0.2s; box-shadow: 0 4px 6px -1px rgba(0, 0, 0, 0.1), 0 2px 4px -1px rgba(0, 0, 0, 0.06);\">\n" ++
  "                      Sign in to your account\n" ++
  "                    </a>\n" ++
  "                  </td>\n" ++
  "                </tr>\n" ++
  "                <tr>\n" ++
  "                  <td>\n" ++
  "                    <p style=\"margin: 0; font-size: 14px; line-height: 20px; color: " ++ "#6b7280" ++ "; text-align: center;\">\n" ++
  "                      If you didn\x27t request this email, you can safely ignore it.\n" ++
  "                    </p>\n" ++
  "                  </td>\n" ++
  "                </tr>\n" ++
  "              </table>\n" ++
  "            </td>\n" ++
  "          </tr>\n" ++
  "        </table>\n" ++
  "      </td>\n" ++
  "    </tr>\n" ++
  "  </table>\n" ++
  "</body>\n"

/-- Embeds `html` from `auth.ts`: the email HTML body, the template literal written
as the concatenation of its chunks and interpolations in order. -/
def html (url host : String) (theme : Theme) : String :=
  htmlPre ++ String.mk (escapeHost host.data) ++ htmlPost url theme

/-- Embeds `text` from `auth.ts`: the plain-text email body. -/
def text (url host : String) : String :=
  "Sign in to " ++ host ++ "\n" ++ url ++ "\n\n"

/-! Section 7. Helper lemmas shared by the claim theorems. -/

/-- Rows of a table whose ids are pairwise distinct (the primary-key
invariant of the `file` table) are determined by their id. -/
theorem eq_of_mem_of_id_eq {db : List File} (huniq : db.Pairwise (fun a b => a.id ≠ b.id))
    {f g : File} (hf : f ∈ db) (hg : g ∈ db) (hid : f.id = g.id) : f = g := by
  by_contra hne
  have hsym : Symmetric (fun (a b : File) => a.id ≠ b.id) := fun a b h he => h he.symm
  exact (huniq.forall hsym hf hg hne) hid

/-- Splitting a character list at the dots never yields an empty list of
labels. -/
theorem splitDots_ne_nil : ∀ cs : List Char, splitDots cs ≠ [] := by
  intro cs
  cases cs with
  | nil => simp [splitDots]
  | cons c cs =>
    by_cases hc : c = '.'
    · simp [splitDots, hc]
    · simp only [splitDots, if_neg hc]
      cases h : splitDots cs with
      | nil => simp
      | cons l ls => simp

/-- Refinement of the host sanitizer: replacing every dot by the
zero-width-space entity followed by the dot is the same as rejoining the
labels of the host with a marker at every label boundary. -/
theorem escapeHost_eq_spec : ∀ host : List Char, escapeHost host = specHostEscape host := by
  intro host
  induction host with
  | nil => rfl
  | cons c cs ih =>
    obtain ⟨l, ls, hsplit⟩ : ∃ l ls, splitDots cs = l :: ls := by
      cases h : splitDots cs with
      | nil => exact absurd h (splitDots_ne_nil cs)
      | cons l ls => exact ⟨l, ls, rfl⟩
    by_cases hc : c = '.'
    · subst hc
      simp [escapeHost, specHostEscape, splitDots, hsplit, joinMarkerDot, ih]
    · cases ls with
      | nil =>
        have hl : escapeHost cs = l := by
          rw [ih]; simp [specHostEscape, hsplit, joinMarkerDot]
        simp [escapeHost, hc, specHostEscape, splitDots, hsplit, joinMarkerDot, hl]
      | cons l2 ls2 =>
        simp [escapeHost, hc, specHostEscape, splitDots, hsplit, joinMarkerDot, ih]

/-! Section 8. Claim theorems. -/

/-- C1 counterexample: the guard does not compare origins. The URL
`https://a.com.evil.org/x` has an origin different from the base URL
`https://a.com`, yet the guard returns the URL itself, not the base URL,
because the URL starts with the base URL as a string. -/
theorem redirect_not_origin_based :
    urlOrigin "https://a.com.evil.org/x" ≠ urlOrigin "https://a.com" ∧
    redirect "https://a.com.evil.org/x" "https://a.com" ≠ "https://a.com" := by
  constructor <;> decide

/-- C1 (amended): the Redirect Guard decides by string prefix, not origin:
when the URL does not start with `baseUrl + "/api/auth/signout"`, the result
is the base URL if the URL does not start with the base URL string, and the
URL unchanged if it does. -/
theorem redirect_prefix_guard (url baseUrl : String) :
    (jsStartsWith url.data (baseUrl ++ signoutPath).data = false →
      jsStartsWith url.data baseUrl.data = false → redirect url baseUrl = baseUrl) ∧
    (jsStartsWith url.data (baseUrl ++ signoutPath).data = false →
      jsStartsWith url.data baseUrl.data = true → redirect url baseUrl = url) := by
  constructor <;> intro hso h <;> unfold redirect <;> rw [hso, h] <;> simp

/-- C1 witness: the amended guard contract evaluated at concrete URLs. -/
theorem redirect_prefix_guard_witness :
    redirect "https://a.com/dash" "https://a.com" = "https://a.com/dash" ∧
    redirect "https://evil.org/x" "https://a.com" = "https://a.com" :=
  ⟨(redirect_prefix_guard "https://a.com/dash" "https://a.com").2 (by decide) (by decide),
   (redirect_prefix_guard "https://evil.org/x" "https://a.com").1 (by decide) (by decide)⟩

/-- C2: `fetchFile` returns the row with the requested id for any caller
(no owner filter), and returns `NOT_FOUND` exactly when no row has that id;
the result does not depend on the caller at all. The `Pairwise` hypothesis
is the primary-key invariant of the `file` table. -/
theorem fetchFile_unscoped (db : List File) (callerId uid : String)
    (huniq : db.Pairwise (fun a b => a.id ≠ b.id)) :
    (∀ f, f ∈ db → f.id = uid → fetchFile db callerId uid = Except.ok f) ∧
    (fetchFile db callerId uid = Except.error TRPCErrorCode.NOT_FOUND ↔
      ∀ f, f ∈ db → f.id ≠ uid) ∧
    (∀ otherCaller, fetchFile db otherCaller uid = fetchFile db callerId uid) := by
  refine ⟨?_, ⟨?_, ?_⟩, fun _ => rfl⟩
  · intro f hf hid
    cases hfind : db.find? (fun g => g.id == uid) with
    | none =>
      rw [List.find?_eq_none] at hfind
      exact absurd hid (by simpa using hfind f hf)
    | some g =>
      have hgid : g.id = uid := by simpa using List.find?_some hfind
      have hfg : f = g :=
        eq_of_mem_of_id_eq huniq hf (List.mem_of_find?_eq_some hfind) (hid.trans hgid.symm)
      simp [fetchFile, hfind, hfg]
  · intro herr f hf hid
    cases hfind : db.find? (fun g => g.id == uid) with
    | none =>
      rw [List.find?_eq_none] at hfind
      have hne2 : f.id ≠ uid := by simpa using hfind f hf
      exact hne2 hid
    | some g => simp [fetchFile, hfind] at herr
  · intro hall
    have hfind : db.find? (fun g => g.id == uid) = none := by
      rw [List.find?_eq_none]
      intro f hf
      simpa using hall f hf
    simp [fetchFile, hfind]

/-- C2 witness: a caller distinct from the owner fetches the file by id. -/
theorem fetchFile_unscoped_witness :
    fetchFile [⟨"f1", "alice", "k1"⟩] "bob" "f1" = Except.ok ⟨"f1", "alice", "k1"⟩ := by
  have huniq : ([⟨"f1", "alice", "k1"⟩] : List File).Pairwise (fun a b => a.id ≠ b.id) := by
    simp
  exact (fetchFile_unscoped [⟨"f1", "alice", "k1"⟩] "bob" "f1" huniq).1
    ⟨"f1", "alice", "k1"⟩ (by simp) rfl

/-- C3: `deleteFile` never deletes a row owned by another user: for a file
`F` owned by `A`, a delete request from `B ≠ A` returns `NOT_FOUND`, the
table is unchanged, and `F` is still present. -/
theorem deleteFile_owner_scoped (db : List File) (F : File) (A B : String)
    (huniq : db.Pairwise (fun a b => a.id ≠ b.id))
    (hmem : F ∈ db) (hown : F.userId = A) (hne : B ≠ A) :
    deleteFile db B F.id = (Except.error TRPCErrorCode.NOT_FOUND, db) ∧
    F ∈ (deleteFile db B F.id).2 := by
  have hfind : db.find? (fun g => g.id == F.id && g.userId == B) = none := by
    rw [List.find?_eq_none]
    intro g hg
    simp only [Bool.and_eq_true, beq_iff_eq, not_and]
    intro hgid
    have hgF : g = F := eq_of_mem_of_id_eq huniq hg hmem hgid
    rw [hgF, hown]
    exact fun h => hne h.symm
  refine ⟨by simp [deleteFile, hfind], ?_⟩
  simp only [deleteFile, hfind]
  exact hmem

/-- C3 witness: a delete request by `bob` for a file of `alice` fails with
`NOT_FOUND` and leaves the table unchanged. -/
theorem deleteFile_owner_scoped_witness :
    deleteFile [⟨"f1", "alice", "k1"⟩] "bob" "f1" =
      (Except.error TRPCErrorCode.NOT_FOUND, [⟨"f1", "alice", "k1"⟩]) := by
  have huniq : ([⟨"f1", "alice", "k1"⟩] : List File).Pairwise (fun a b => a.id ≠ b.id) := by
    simp
  exact (deleteFile_owner_scoped [⟨"f1", "alice", "k1"⟩] ⟨"f1", "alice", "k1"⟩ "alice" "bob"
    huniq (by simp) rfl (by decide)).1

/-- C4 counterexample: the unknown-account case and the missing-hash case
throw the same message `Email does not exist`, so the three failure cases do
not produce three distinct user-presentable reasons. -/
theorem authorize_reasons_counterexample :
    authorize [] (fun _ _ => true) (some ⟨some "a@b.c", some "pw"⟩) =
      Except.error "Email does not exist" ∧
    authorize [⟨"u1", none, "a@b.c", none⟩] (fun _ _ => true) (some ⟨some "a@b.c", some "pw"⟩) =
      Except.error "Email does not exist" :=
  ⟨rfl, rfl⟩

/-- C4 (amended): given non-empty email and password, `authorize` fails in
exactly three cases, but the unknown-account and missing-hash cases share
the reason `Email does not exist`, while a failed comparison gives the
distinct reason `Incorrect password`; otherwise the user is returned. -/
theorem authorize_failure_taxonomy (db : List User) (cmp : String → String → Bool)
    (e p : String) (he : e ≠ "") (hp : p ≠ "") :
    (db.find? (fun u => u.email == e) = none →
      authorize db cmp (some ⟨some e, some p⟩) = Except.error "Email does not exist") ∧
    (∀ u, db.find? (fun u2 => u2.email == e) = some u → jsFalsyStr u.hashedPassword = true →
      authorize db cmp (some ⟨some e, some p⟩) = Except.error "Email does not exist") ∧
    (∀ u h2, db.find? (fun u2 => u2.email == e) = some u → u.hashedPassword = some h2 →
      h2 ≠ "" → cmp p h2 = false →
      authorize db cmp (some ⟨some e, some p⟩) = Except.error "Incorrect password") ∧
    (∀ u h2, db.find? (fun u2 => u2.email == e) = some u → u.hashedPassword = some h2 →
      h2 ≠ "" → cmp p h2 = true →
      authorize db cmp (some ⟨some e, some p⟩) = Except.ok u) := by
  have hfal : (jsFalsyStr (some e) || jsFalsyStr (some p)) = false := by
    simp [jsFalsyStr, he, hp]
  refine ⟨?_, ?_, ?_, ?_⟩
  · intro hfind
    simp [authorize, hfal, hfind]
  · intro u hfind hfalsy
    cases hh : u.hashedPassword with
    | none => simp [authorize, hfal, hfind, hh]
    | some s =>
      have hs : s = "" := by simpa [jsFalsyStr, hh] using hfalsy
      simp [authorize, hfal, hfind, hh, hs]
  · intro u h2 hfind hh hne hcmp
    simp [authorize, hfal, hfind, hh, hne, hcmp]
  · intro u h2 hfind hh hne hcmp
    simp [authorize, hfal, hfind, hh, hne, hcmp]

/-- C4 witness: a wrong password on an account with a stored hash yields the
distinct reason `Incorrect password`. -/
theorem authorize_failure_taxonomy_witness :
    authorize [⟨"u1", none, "a@b.c", some "h"⟩] (fun _ _ => false)
        (some ⟨some "a@b.c", some "pw"⟩) = Except.error "Incorrect password" :=
  (authorize_failure_taxonomy [⟨"u1", none, "a@b.c", some "h"⟩] (fun _ _ => false)
      "a@b.c" "pw" (by decide) (by decide)).2.2.1
    ⟨"u1", none, "a@b.c", some "h"⟩ "h" rfl rfl (by decide) rfl

/-- C5 counterexample: the URL `https://a.com/foo/api/auth/signout` ends in
the sign-out path and is same-origin with the base URL `https://a.com`, yet
the guard returns the URL itself, because the guard only tests the string
prefix `baseUrl + "/api/auth/signout"`. -/
theorem redirect_signout_suffix_counterexample :
    jsEndsWith ("https://a.com/foo/api/auth/signout").data signoutPath.data = true ∧
    urlOrigin "https://a.com/foo/api/auth/signout" = urlOrigin "https://a.com" ∧
    redirect "https://a.com/foo/api/auth/signout" "https://a.com" ≠ "https://a.com" :=
  ⟨by decide, by decide, by decide⟩

/-- C5 (amended): for every callback URL that starts with
`baseUrl + "/api/auth/signout"`, the guard returns the bare base URL (such a
URL in particular starts with the base URL, so this holds even though the
URL would otherwise be returned unchanged). -/
theorem redirect_signout_always_base (url baseUrl : String)
    (h : jsStartsWith url.data (baseUrl ++ signoutPath).data = true) :
    redirect url baseUrl = baseUrl := by
  unfold redirect
  rw [h]
  simp

/-- C5 witness: a sign-out URL carrying an external callback parameter is
redirected to the bare base URL. -/
theorem redirect_signout_always_base_witness :
    redirect "https://a.com/api/auth/signout?callbackUrl=https://evil.org" "https://a.com" =
      "https://a.com" :=
  redirect_signout_always_base "https://a.com/api/auth/signout?callbackUrl=https://evil.org"
    "https://a.com" (by decide)

/-- C6: round-trip of the session claims: applying the session callback to
the token produced by the jwt callback at sign-in yields a session whose
user id and name are exactly the id and name of the signed-in user. -/
theorem session_roundtrip (tok : JWToken) (u : User) (s : Session) (su : SessionUser)
    (hs : s.user = some su) :
    ∃ su2, (session s (jwt tok (some u))).user = some su2 ∧
      su2.id = some u.id ∧ su2.name = u.name := by
  refine ⟨{ su with name := u.name, id := some u.id }, ?_, rfl, rfl⟩
  simp [session, jwt, hs]

/-- C6 witness: the round-trip evaluated on a concrete user and session. -/
theorem session_roundtrip_witness :
    ∃ su2,
      (session ⟨some ⟨none, none, none, none⟩, "2099-01-01"⟩
          (jwt ⟨none, none⟩ (some ⟨"u1", some "Alice", "a@b.c", none⟩))).user = some su2 ∧
      su2.id = some "u1" ∧ su2.name = some "Alice" :=
  session_roundtrip ⟨none, none⟩ ⟨"u1", some "Alice", "a@b.c", none⟩
    ⟨some ⟨none, none, none, none⟩, "2099-01-01"⟩ ⟨none, none, none, none⟩ rfl

/-- C7: the magic-link HTML body renders the host through the sanitizer, and
the sanitizer places a zero-width marker at every label boundary of the
host: replacing each dot with the entity-then-dot equals rejoining the
labels with a marker at each boundary, and the rendered body contains the
sanitized host as a substring. -/
theorem html_renders_escaped_host (url host : String) (theme : Theme)
    (_hdot : '.' ∈ host.data) :
    escapeHost host.data = specHostEscape host.data ∧
    ∃ s t : String, html url host theme = s ++ String.mk (escapeHost host.data) ++ t :=
  ⟨escapeHost_eq_spec host.data, htmlPre, htmlPost url theme, rfl⟩

/-- C7 witness: the rendering property evaluated at the host `example.com`. -/
theorem html_renders_escaped_host_witness :
    ('.' ∈ ("example.com" : String).data) ∧
    (escapeHost ("example.com" : String).data = specHostEscape ("example.com" : String).data ∧
      ∃ s t : String,
        html "https://example.com/x" "example.com" ⟨none, none⟩ =
          s ++ String.mk (escapeHost ("example.com" : String).data) ++ t) :=
  ⟨by decide, html_renders_escaped_host "https://example.com/x" "example.com" ⟨none, none⟩
    (by decide)⟩

/-- C8: for a user with no stored password hash, `authorize` always fails
with one of the two controlled error messages and never reaches the password
comparison: the result is the same for every comparison function. -/
theorem authorize_no_hash_safe (db : List User) (e : String) (pw : Option String) (u : User)
    (hfind : db.find? (fun x => x.email == e) = some u)
    (hnone : u.hashedPassword = none)
    (cmp cmp2 : String → String → Bool) :
    (authorize db cmp (some ⟨some e, pw⟩) = Except.error "Email and password required" ∨
     authorize db cmp (some ⟨some e, pw⟩) = Except.error "Email does not exist") ∧
    authorize db cmp (some ⟨some e, pw⟩) = authorize db cmp2 (some ⟨some e, pw⟩) := by
  by_cases hfal : (jsFalsyStr (some e) || jsFalsyStr pw) = true
  · exact ⟨Or.inl (by simp [authorize, hfal]), by simp [authorize, hfal]⟩
  · have hfal2 : (jsFalsyStr (some e) || jsFalsyStr pw) = false := by
      simpa using hfal
    exact ⟨Or.inr (by simp [authorize, hfal2, hfind, hnone]),
      by simp [authorize, hfal2, hfind, hnone]⟩

/-- C8 witness: an OAuth-only account (no hash) rejects any password, with
the same controlled error under two different comparison functions. -/
theorem authorize_no_hash_safe_witness :
    (authorize [⟨"u1", none, "a@b.c", none⟩] (fun _ _ => true) (some ⟨some "a@b.c", some "x"⟩) =
        Except.error "Email and password required" ∨
      authorize [⟨"u1", none, "a@b.c", none⟩] (fun _ _ => true) (some ⟨some "a@b.c", some "x"⟩) =
        Except.error "Email does not exist") ∧
    authorize [⟨"u1", none, "a@b.c", none⟩] (fun _ _ => true) (some ⟨some "a@b.c", some "x"⟩) =
      authorize [⟨"u1", none, "a@b.c", none⟩] (fun _ _ => false)
        (some ⟨some "a@b.c", some "x"⟩) :=
  authorize_no_hash_safe [⟨"u1", none, "a@b.c", none⟩] "a@b.c" (some "x")
    ⟨"u1", none, "a@b.c", none⟩ rfl rfl (fun _ _ => true) (fun _ _ => false)

/-- C9: the configured session validity window `maxAge = 2592000 * 3`
seconds equals exactly 90 days. -/
theorem maxAge_ninety_days : maxAge = 90 * 24 * 3600 := by decide

/-- C10: the jwt callback is a frame rule: with no user supplied it returns
the incoming token unchanged, and the `name` and `id` claims are written
exactly on the sign-in invocation where a user is present. -/
theorem jwt_frame (tok : JWToken) :
    jwt tok none = tok ∧
    ∀ u : User, (jwt tok (some u)).name = u.name ∧ (jwt tok (some u)).id = some u.id :=
  ⟨rfl, fun _ => ⟨rfl, rfl⟩⟩
